import Mathlib

set_option autoImplicit false

/-!
Shallow embedding of `backend/ai_generator.py` (AIGenerator): provider routing at
construction, system-prompt assembly, and the two tool-calling protocols
(Anthropic native tool-use, and OpenAI-style function calling through aisuite).

External collaborators are modelled as function parameters:
the provider transports are total functions from request to response
(the source only logs and re-raises transport errors, which adds nothing to the
claims about requests and returned text); the tool executor
(`tool_manager.execute_tool`, not part of the embedded sources) and the JSON
argument parser (`json.loads`) may fail, modelled with `Except String`.
Python dynamic values (argument maps, schemas) are modelled as opaque strings.
Each generator run additionally returns a trace recording the outbound requests
made and the executor invocations performed, so that call counts can be stated.
-/

/-- A keyword argument of a tool call: name and (opaque) value. -/
abbrev Arg := String × String

/-- An executor invocation record: tool name and the argument map it was called with. -/
abbrev ExecCall := String × List Arg

/-- The tool executor contract (`tool_manager.execute_tool(name, **args)`):
returns text, or fails by raising (modelled as `Except.error`). -/
abbrev ExecFn := String → List Arg → Except String String

/-- Anthropic-native tool definition shape: name, description, input schema. -/
structure AToolSpec where
  name : String
  description : String
  input_schema : String
  deriving Repr, DecidableEq

/-- The inner function object of an OpenAI-format tool definition. -/
structure OToolFunction where
  name : String
  description : String
  parameters : String
  deriving Repr, DecidableEq

/-- OpenAI function-calling tool definition shape: type plus function object. -/
structure OToolSpec where
  type : String
  function : OToolFunction
  deriving Repr, DecidableEq

/-- A tool definition value as passed around dynamically in the Python source:
either the Anthropic-native dict shape or the OpenAI function-calling dict shape. -/
inductive ToolVal where
  | native (t : AToolSpec)
  | openaiFmt (t : OToolSpec)
  deriving Repr, DecidableEq

/-- True exactly for values in the OpenAI function-calling shape. -/
def isFunctionShaped : ToolVal → Bool
  | .openaiFmt _ => true
  | .native _ => false

/-- Embeds `AIGenerator._convert_tools_to_openai_format`: a loop that appends,
for each native tool, the corresponding function-calling shaped tool. -/
def AIGenerator.convert_tools_to_openai_format (anthropic_tools : List AToolSpec) :
    List OToolSpec :=
  anthropic_tools.foldl
    (fun openai_tools tool =>
      openai_tools ++
        [{ type := "function",
           function := { name := tool.name, description := tool.description,
                         parameters := tool.input_schema } }])
    []

/-- Effective credential/model configuration visible to `AIGenerator.__init__`
(each key is the value after the `getattr`/environment fallback; an absent
credential is the empty string, an absent model attribute is `none`). -/
structure Config where
  OPENAI_API_KEY : String := ""
  ANTHROPIC_API_KEY : String := ""
  GOOGLE_API_KEY : String := ""
  XAI_API_KEY : String := ""
  OPENAI_MODEL : Option String := none
  ANTHROPIC_MODEL : Option String := none
  GEMINI_MODEL : Option String := none
  GROK_MODEL : Option String := none
  deriving Repr, DecidableEq

/-- The four providers of the routing chain in `AIGenerator.__init__`. -/
inductive Provider where
  | openai
  | anthropic
  | google
  | xai
  deriving Repr, DecidableEq

/-- The credential slot belonging to a provider. -/
def Provider.keyOf (cfg : Config) : Provider → String
  | .openai => cfg.OPENAI_API_KEY
  | .anthropic => cfg.ANTHROPIC_API_KEY
  | .google => cfg.GOOGLE_API_KEY
  | .xai => cfg.XAI_API_KEY

/-- The fixed priority order documented and implemented in `AIGenerator.__init__`:
OpenAI, then Anthropic, then Google Gemini, then xAI Grok. -/
def providerPriority : List Provider :=
  [Provider.openai, Provider.anthropic, Provider.google, Provider.xai]

/-- Modelled from the spec: the ProviderRouter selection rule, "iterate a fixed
priority list of providers; the first slot with a non-empty secret is selected".
Used to state that the constructor chain refines this rule. -/
def selectProvider (cfg : Config) : Option Provider :=
  providerPriority.find? (fun p => p.keyOf cfg != "")

/-- Provider-selection outcome of a successful construction: which branch of the
if/elif chain was taken (the provider the source logs), the `provider_mode`
string stored on the instance, and the resolved model identifier. -/
structure InitState where
  provider : Provider
  provider_mode : String
  model : String
  deriving Repr, DecidableEq

/-- Embeds the provider-routing part of `AIGenerator.__init__`:
the if/elif chain over the four keys, the aisuite-availability check
(`ai is None`) on the three aisuite branches, model resolution with the
source defaults, and the final `ValueError` when no key is set.
`aisuiteAvailable` models whether the optional `aisuite` import succeeded. -/
def AIGenerator.init (aisuiteAvailable : Bool) (cfg : Config) :
    Except String InitState :=
  if cfg.OPENAI_API_KEY ≠ "" then
    if aisuiteAvailable then
      .ok { provider := .openai, provider_mode := "aisuite",
            model := "openai:" ++ cfg.OPENAI_MODEL.getD "gpt-4o" }
    else
      .error "aisuite is not installed but OPENAI_API_KEY is set. Add aisuite to dependencies."
  else if cfg.ANTHROPIC_API_KEY ≠ "" then
    .ok { provider := .anthropic, provider_mode := "anthropic",
          model := cfg.ANTHROPIC_MODEL.getD "claude-sonnet-4-20250514" }
  else if cfg.GOOGLE_API_KEY ≠ "" then
    if aisuiteAvailable then
      .ok { provider := .google, provider_mode := "aisuite",
            model := "google:" ++ cfg.GEMINI_MODEL.getD "gemini-1.5-pro-002" }
    else
      .error "aisuite is not installed but GOOGLE_API_KEY is set. Add aisuite to dependencies."
  else if cfg.XAI_API_KEY ≠ "" then
    if aisuiteAvailable then
      .ok { provider := .xai, provider_mode := "aisuite",
            model := "xai:" ++ cfg.GROK_MODEL.getD "grok-2-latest" }
    else
      .error "aisuite is not installed but XAI_API_KEY is set. Add aisuite to dependencies."
  else
    .error "No supported LLM API keys found."

/-- The fixed base instruction `AIGenerator.SYSTEM_PROMPT` (verbatim; the single
apostrophe is written with an escape). -/
def AIGenerator.SYSTEM_PROMPT : String :=
  " You are an AI assistant for course materials. You MUST always search the course database first before answering any question.\n\nMANDATORY Search Protocol:\n- **ALWAYS use the search tool first** for every question, regardless of topic\n- Search for relevant course content before providing any response\n- Only answer based on what you find in the search results\n- If no relevant content is found, say \"I don\x27t have information about this in the available course materials\"\n\nResponse Requirements:\n- Base answers ONLY on course content found through search\n- Do not use general knowledge - only use course materials\n- Be specific and cite course details when available\n- Keep responses focused and educational\n- Do not mention the search process in your response\n\nRemember: SEARCH FIRST, then answer based only on course materials found.\n"

/-- Embeds the `system_content` construction in `generate_response`: when the
history string is truthy (non-empty), append the labeled previous-conversation
section to the base instruction, else return the base instruction unchanged. -/
def assembleSystem (base history : String) : String :=
  if history ≠ "" then base ++ ("\n\nPrevious conversation:\n" ++ history) else base

/-- A content block of an Anthropic message: a text block or a tool-use block
(invocation id, tool name, argument map). -/
inductive AContent where
  | text (text : String)
  | toolUse (id : String) (name : String) (input : List Arg)
  deriving Repr, DecidableEq

/-- One entry of the batched tool-results message built by
`_handle_tool_execution`. -/
structure ToolResultEntry where
  type : String
  tool_use_id : String
  content : String
  deriving Repr, DecidableEq

/-- The content of an Anthropic conversation turn: a plain string, the echoed
content-block list of an assistant response, or a batch of tool results. -/
inductive AMsgContent where
  | str (s : String)
  | blocks (blocks : List AContent)
  | results (results : List ToolResultEntry)
  deriving Repr, DecidableEq

/-- An Anthropic conversation turn. -/
structure AMessage where
  role : String
  content : AMsgContent
  deriving Repr, DecidableEq

/-- An Anthropic `messages.create` request as assembled by the source
(`base_params` merged with messages/system, plus optional tools fields). -/
structure ARequest where
  model : String
  temperature : Nat := 0
  max_tokens : Nat := 800
  messages : List AMessage
  system : String
  tools : Option (List ToolVal) := none
  tool_choice : Option String := none
  deriving Repr, DecidableEq

/-- An Anthropic response: content blocks and stop reason. -/
structure AResponse where
  content : List AContent
  stop_reason : String
  deriving Repr, DecidableEq

/-- Trace of one `generate_response` run in Anthropic mode: the outbound
requests in order, and the executor invocations in order. -/
structure ATrace where
  requests : List ARequest
  toolExecs : List ExecCall
  deriving Repr, DecidableEq

/-- Embeds the Python expression `response.content[0].text`: fails on an empty
content list (IndexError) or when the first block is a tool-use block
(AttributeError: no `text` attribute). -/
def firstBlockText : List AContent → Except String String
  | [] => .error "IndexError: content is empty"
  | .text s :: _ => .ok s
  | .toolUse _ _ _ :: _ => .error "AttributeError: tool_use block has no text"

/-- Embeds the result-collection loop of `_handle_tool_execution`: iterate the
content blocks, call the executor on each tool-use block and collect one
`tool_result` entry per block; an executor exception propagates immediately
(the source has no try/except here), aborting the iteration. Also returns the
executor invocations that were performed. -/
def runAToolLoop (executeTool : ExecFn) :
    List AContent → Except String (List ToolResultEntry) × List ExecCall
  | [] => (.ok [], [])
  | .text _ :: rest => runAToolLoop executeTool rest
  | .toolUse id name input :: rest =>
    match executeTool name input with
    | .error e => (.error e, [(name, input)])
    | .ok r =>
      match runAToolLoop executeTool rest with
      | (res, calls) =>
        (res.map (fun rs => { type := "tool_result", tool_use_id := id, content := r } :: rs),
         (name, input) :: calls)

/-- The initial Anthropic request (`api_params` in `generate_response`):
single user turn, assembled system text, and tools plus auto tool-choice
attached exactly when the tools list is truthy (non-empty). -/
def anthropicFirstRequest (model query history : String) (tools : List ToolVal) :
    ARequest :=
  { model := model,
    messages := [{ role := "user", content := .str query }],
    system := assembleSystem AIGenerator.SYSTEM_PROMPT history,
    tools := if !tools.isEmpty then some tools else none,
    tool_choice := if !tools.isEmpty then some "auto" else none }

/-- Embeds `AIGenerator._handle_tool_execution`: copy the messages, append the
assistant turn echoing the full response content, run the executor loop
(an executor exception propagates before any follow-up request), append the
batched tool-results user turn when non-empty, and issue the follow-up request
without tools; the result is the follow-up response text via `content[0].text`. -/
def AIGenerator.handle_tool_execution (provider : ARequest → AResponse)
    (executeTool : ExecFn) (initial_response : AResponse) (base : ARequest) :
    Except String String × ATrace :=
  let messages := base.messages ++
    [{ role := "assistant", content := .blocks initial_response.content }]
  match runAToolLoop executeTool initial_response.content with
  | (.error e, calls) => (.error e, { requests := [], toolExecs := calls })
  | (.ok tool_results, calls) =>
    let messages := if !tool_results.isEmpty then
        messages ++ [{ role := "user", content := .results tool_results }]
      else messages
    let final_params : ARequest :=
      { model := base.model, messages := messages, system := base.system }
    let final_response := provider final_params
    (firstBlockText final_response.content,
     { requests := [final_params], toolExecs := calls })

/-- Embeds the Anthropic branch of `AIGenerator.generate_response`: build the
initial request, send it, and either hand off to tool execution (stop reason
`tool_use` and a tool manager supplied) or return `content[0].text`. -/
def AIGenerator.generate_response_anthropic (provider : ARequest → AResponse)
    (model query history : String) (tools : List ToolVal)
    (tool_manager : Option ExecFn) :
    Except String String × ATrace :=
  let api_params := anthropicFirstRequest model query history tools
  let response := provider api_params
  match tool_manager with
  | some executeTool =>
    if response.stop_reason = "tool_use" then
      match AIGenerator.handle_tool_execution provider executeTool response api_params with
      | (res, t) => (res, { requests := api_params :: t.requests, toolExecs := t.toolExecs })
    else
      (firstBlockText response.content, { requests := [api_params], toolExecs := [] })
  | none =>
    (firstBlockText response.content, { requests := [api_params], toolExecs := [] })

/-- The invocation ids of the tool-use blocks of a content list, in order. -/
def toolUseIds : List AContent → List String
  | [] => []
  | .text _ :: rest => toolUseIds rest
  | .toolUse id _ _ :: rest => id :: toolUseIds rest

/-- The number of tool calls requested by a content list. -/
def numToolUses (blocks : List AContent) : Nat :=
  (toolUseIds blocks).length

/-- The tool-result invocation ids carried by one conversation turn. -/
def messageResultIds (m : AMessage) : List String :=
  match m.content with
  | .results rs => rs.map (fun r => r.tool_use_id)
  | _ => []

/-- All tool-result invocation ids appearing in a request, in turn order. -/
def aToolResultIds (r : ARequest) : List String :=
  (r.messages.map messageResultIds).flatten

/-- An OpenAI-style tool-call descriptor on an assistant message: invocation id
and the called function object (name plus serialized JSON arguments). -/
structure OToolCall where
  id : String
  function_name : String
  function_arguments : String
  deriving Repr, DecidableEq

/-- A chat-completion conversation turn (also used as the message object of a
response choice). `content` is `none` for Python `None`. -/
structure OMessage where
  role : String
  content : Option String
  tool_calls : Option (List OToolCall) := none
  tool_call_id : Option String := none
  deriving Repr, DecidableEq

/-- One choice of a chat-completion response. -/
structure OChoice where
  message : OMessage
  deriving Repr, DecidableEq

/-- A chat-completion response. -/
structure OResponse where
  choices : List OChoice
  deriving Repr, DecidableEq

/-- A chat-completion request as assembled by the aisuite branch. -/
structure ORequest where
  model : String
  messages : List OMessage
  temperature : Nat := 0
  tools : Option (List ToolVal) := none
  tool_choice : Option String := none
  deriving Repr, DecidableEq, Inhabited

/-- Trace of one `generate_response` run in aisuite mode. -/
structure OTrace where
  requests : List ORequest
  toolExecs : List ExecCall
  deriving Repr, DecidableEq

/-- The JSON argument parser contract (`json.loads` on the serialized argument
payload): a structured argument map, or a raised parse error. -/
abbrev ParseFn := String → Except String (List Arg)

/-- Python truthiness of a `tool_calls` attribute: truthy iff it is a
non-empty list (not `None`, not `[]`). -/
def truthyToolCalls : Option (List OToolCall) → Bool
  | none => false
  | some tcs => !tcs.isEmpty

/-- The outcome of one tool call under the function-calling branch: parse the
serialized arguments, then execute; either step may fail. -/
def callOutcome (parseArgs : ParseFn) (executeTool : ExecFn) (tc : OToolCall) :
    Except String String :=
  match parseArgs tc.function_arguments with
  | .error e => .error e
  | .ok args => executeTool tc.function_name args

/-- Embeds one iteration of the tool-call loop in
`_handle_openai_tool_execution`: parse the arguments and execute the tool
inside a try/except; on success append a tool-role turn with the result, on any
exception append a tool-role turn whose content is the error-describing string,
always carrying this call invocation id. The second component records the
executor invocation when the executor was actually reached. -/
def processToolCall (parseArgs : ParseFn) (executeTool : ExecFn) (tc : OToolCall) :
    OMessage × Option ExecCall :=
  match parseArgs tc.function_arguments with
  | .error e =>
    ({ role := "tool", content := some ("Error executing tool: " ++ e),
       tool_call_id := some tc.id }, none)
  | .ok function_args =>
    match executeTool tc.function_name function_args with
    | .error e =>
      ({ role := "tool", content := some ("Error executing tool: " ++ e),
         tool_call_id := some tc.id }, some (tc.function_name, function_args))
    | .ok tool_result =>
      ({ role := "tool", content := some tool_result,
         tool_call_id := some tc.id }, some (tc.function_name, function_args))

/-- Embeds the Python expression
`r.choices[0].message.content if r and r.choices else ""` used for both the
regular and the follow-up aisuite response. -/
def oResponseText (r : OResponse) : Option String :=
  match r.choices with
  | [] => some ""
  | c :: _ => c.message.content

/-- The initial aisuite request (`api_params` in `generate_response`): system
and user turns, temperature 0, and tools plus auto tool-choice attached exactly
when both the tools list and the tool manager are truthy. -/
def aisuiteFirstRequest (model query history : String) (tools : List ToolVal)
    (managerPresent : Bool) : ORequest :=
  { model := model,
    messages :=
      [{ role := "system", content := some (assembleSystem AIGenerator.SYSTEM_PROMPT history) },
       { role := "user", content := some query }],
    tools := if !tools.isEmpty && managerPresent then some tools else none,
    tool_choice := if !tools.isEmpty && managerPresent then some "auto" else none }

/-- Embeds `AIGenerator._handle_openai_tool_execution`: copy the messages,
append the assistant turn echoing content and tool-call descriptors, process
every tool call (per-call failure isolation, one tool-role turn each), then
issue the follow-up request without tools and return its text. The leading
error cases embed the IndexError/TypeError that indexing an empty choices list
or iterating a `None` tool_calls would raise (unreachable from the call site,
which checks both). -/
def AIGenerator.handle_openai_tool_execution (provider : ORequest → OResponse)
    (parseArgs : ParseFn) (executeTool : ExecFn)
    (initial_response : OResponse) (base : ORequest) :
    Except String (Option String) × OTrace :=
  match initial_response.choices with
  | [] => (.error "IndexError: choices is empty", { requests := [], toolExecs := [] })
  | choice :: _ =>
    match choice.message.tool_calls with
    | none => (.error "TypeError: tool_calls is None", { requests := [], toolExecs := [] })
    | some tool_calls =>
      let assistant_message : OMessage :=
        { role := "assistant", content := choice.message.content,
          tool_calls := some tool_calls }
      let processed := tool_calls.map (processToolCall parseArgs executeTool)
      let messages := (base.messages ++ [assistant_message]) ++ processed.map Prod.fst
      let final_params : ORequest :=
        { model := base.model, messages := messages, temperature := base.temperature }
      let final_response := provider final_params
      (.ok (oResponseText final_response),
       { requests := [final_params], toolExecs := processed.filterMap Prod.snd })

/-- Embeds the aisuite branch of `AIGenerator.generate_response`: build the
initial request (tools attached only when both tools and tool manager are
truthy), send it, and either hand off to tool execution (non-empty choices
whose first message carries truthy tool calls, and a tool manager supplied) or
return the regular response text. -/
def AIGenerator.generate_response_aisuite (provider : ORequest → OResponse)
    (parseArgs : ParseFn) (model query history : String) (tools : List ToolVal)
    (tool_manager : Option ExecFn) :
    Except String (Option String) × OTrace :=
  let api_params := aisuiteFirstRequest model query history tools tool_manager.isSome
  let response := provider api_params
  match tool_manager, response.choices with
  | some executeTool, choice :: _ =>
    if truthyToolCalls choice.message.tool_calls then
      match AIGenerator.handle_openai_tool_execution provider parseArgs executeTool
          response api_params with
      | (res, t) => (res, { requests := api_params :: t.requests, toolExecs := t.toolExecs })
    else
      (.ok (oResponseText response), { requests := [api_params], toolExecs := [] })
  | _, _ =>
    (.ok (oResponseText response), { requests := [api_params], toolExecs := [] })

/-- The tool-role turns of a request, in order. -/
def oToolTurns (r : ORequest) : List OMessage :=
  r.messages.filter (fun m => m.role == "tool")

/-- The invocation ids of the tool-role turns of a request, in order. -/
def oToolTurnIds (r : ORequest) : List (Option String) :=
  (oToolTurns r).map (fun m => m.tool_call_id)

/-! Concrete providers, executors and tool definitions used to instantiate the
theorems below on executable inputs. -/

/-- A concrete Anthropic-native tool definition. -/
def aTool1 : AToolSpec :=
  { name := "search_course_content", description := "Search the courses",
    input_schema := "schema1" }

/-- A concrete Anthropic response carrying no tool use. -/
def cResponsePlainA : AResponse :=
  { content := [.text "hello"], stop_reason := "end_turn" }

/-- An Anthropic provider that always returns the plain response. -/
def cProviderPlainA : ARequest → AResponse := fun _ => cResponsePlainA

/-- A concrete Anthropic response requesting one tool call. -/
def cResponseOneTool : AResponse :=
  { content := [.text "I will search",
                .toolUse "tu1" "search_course_content" [("query", "MCP")]],
    stop_reason := "tool_use" }

/-- An Anthropic provider that always returns the one-tool-call response. -/
def cProviderOneTool : ARequest → AResponse := fun _ => cResponseOneTool

/-- A concrete Anthropic response requesting two tool calls. -/
def cResponseTwoTool : AResponse :=
  { content := [.toolUse "tu1" "alpha" [("k", "v")], .toolUse "tu2" "beta" []],
    stop_reason := "tool_use" }

/-- An Anthropic provider that always returns the two-tool-call response. -/
def cProviderTwoTool : ARequest → AResponse := fun _ => cResponseTwoTool

/-- An executor that always succeeds. -/
def okExec : ExecFn := fun _ _ => .ok "MCP is a protocol"

/-- An executor that always raises. -/
def failExecA : ExecFn := fun _ _ => .error "boom"

/-- Another executor that always raises, with a distinct message. -/
def failExecB : ExecFn := fun _ _ => .error "kaboom"

/-- A concrete function-calling tool call whose arguments parse. -/
def oCall1 : OToolCall :=
  { id := "c1", function_name := "search_course_content", function_arguments := "good" }

/-- A concrete function-calling tool call whose arguments do not parse. -/
def oCall2 : OToolCall :=
  { id := "c2", function_name := "tool_b", function_arguments := "bad" }

/-- A response choice whose message requests the two calls above. -/
def choiceTwoCalls : OChoice :=
  { message :=
      { role := "assistant", content := none, tool_calls := some [oCall1, oCall2] } }

/-- A chat-completion response whose message requests the two calls above. -/
def cOResponseTwoCalls : OResponse :=
  { choices := [choiceTwoCalls] }

/-- A credential configuration with only the Anthropic key populated. -/
def cfgAnthropicOnly : Config := { ANTHROPIC_API_KEY := "sk-ant" }

/-- A chat-completion provider that always returns the two-call response. -/
def cOProviderTwoCalls : ORequest → OResponse := fun _ => cOResponseTwoCalls

/-- A chat-completion response with a plain text answer and no tool calls. -/
def cOResponsePlain : OResponse :=
  { choices := [{ message := { role := "assistant", content := some "plain answer" } }] }

/-- A chat-completion provider that always returns the plain response. -/
def cOProviderPlain : ORequest → OResponse := fun _ => cOResponsePlain

/-- A parser that fails on the payload "bad" and succeeds otherwise. -/
def cParse : ParseFn :=
  fun s => if s = "bad" then .error "Expecting value" else .ok [("query", "MCP")]

/-- A parser that always succeeds. -/
def cParseOk : ParseFn := fun _ => .ok [("query", "MCP")]

/-- The follow-up request that `_handle_tool_execution` sends after a
successful executor loop with result entries `rs` (named here so that the path
lemmas and claims can speak about it; it is exactly the request the embedded
handler builds). -/
def anthropicToolFollowUp (provider : ARequest → AResponse)
    (model query history : String) (tools : List ToolVal)
    (rs : List ToolResultEntry) : ARequest :=
  { model := model,
    messages :=
      [{ role := "user", content := .str query },
       { role := "assistant",
         content := .blocks (provider (anthropicFirstRequest model query history tools)).content },
       { role := "user", content := .results rs }],
    system := assembleSystem AIGenerator.SYSTEM_PROMPT history }

/-- The follow-up request that `_handle_openai_tool_execution` sends for a
first response whose head choice is `choice` carrying the calls `tcs` (named
here for the path lemmas and claims; it is exactly the request the embedded
handler builds). -/
def aisuiteToolFollowUp (parseArgs : ParseFn)
    (executeTool : ExecFn) (model query history : String) (tools : List ToolVal)
    (choice : OChoice) (tcs : List OToolCall) : ORequest :=
  { model := model,
    messages :=
      ((aisuiteFirstRequest model query history tools true).messages ++
        [{ role := "assistant", content := choice.message.content, tool_calls := some tcs }]) ++
      (tcs.map (processToolCall parseArgs executeTool)).map Prod.fst }

/-! Helper lemmas about the embedded operations. -/

/-- Appending-fold characterization used for the tool-format converter. -/
theorem foldl_append_map {α β : Type} (g : α → β) (l : List α) :
    ∀ acc : List β, l.foldl (fun a t => a ++ [g t]) acc = acc ++ l.map g := by
  induction l with
  | nil => intro acc; simp
  | cons x xs ih => intro acc; simp [List.foldl, ih]

/-- When the native executor loop succeeds, the collected result entries carry
exactly the tool-use ids in order, and the executor was invoked once per
tool-use block. -/
theorem runAToolLoop_ok_spec (executeTool : ExecFn) :
    ∀ (bs : List AContent) (rs : List ToolResultEntry) (calls : List ExecCall),
      runAToolLoop executeTool bs = (.ok rs, calls) →
      rs.map (fun r => r.tool_use_id) = toolUseIds bs ∧ calls.length = numToolUses bs := by
  intro bs
  induction bs with
  | nil =>
    intro rs calls h
    simp only [runAToolLoop, Prod.mk.injEq] at h
    obtain ⟨h1, h2⟩ := h
    cases h1
    cases h2
    simp [toolUseIds, numToolUses]
  | cons b rest ih =>
    intro rs calls h
    cases b with
    | text s =>
      have h2 : runAToolLoop executeTool rest = (.ok rs, calls) := h
      have := ih rs calls h2
      simpa [toolUseIds, numToolUses] using this
    | toolUse id name input =>
      simp only [runAToolLoop] at h
      cases hx : executeTool name input with
      | error e => rw [hx] at h; simp at h
      | ok r =>
        rw [hx] at h
        cases hr : runAToolLoop executeTool rest with
        | mk res cs =>
          rw [hr] at h
          cases res with
          | error e => simp [Except.map] at h
          | ok rs2 =>
            simp only [Except.map, Prod.mk.injEq, Except.ok.injEq] at h
            obtain ⟨h1, h2⟩ := h
            cases h1
            cases h2
            obtain ⟨ih1, ih2⟩ := ih rs2 cs hr
            constructor
            · simp [toolUseIds, ih1]
            · simp only [numToolUses, toolUseIds, List.length_cons] at ih2 ⊢
              omega

/-- When the native executor loop fails, the executor was invoked at least
once and at most once per tool-use block. -/
theorem runAToolLoop_error_calls (executeTool : ExecFn) :
    ∀ (bs : List AContent) (e : String) (calls : List ExecCall),
      runAToolLoop executeTool bs = (.error e, calls) →
      1 ≤ calls.length ∧ calls.length ≤ numToolUses bs := by
  intro bs
  induction bs with
  | nil =>
    intro e calls h
    simp only [runAToolLoop, Prod.mk.injEq] at h
    exact absurd h.1 (by simp)
  | cons b rest ih =>
    intro e calls h
    cases b with
    | text s =>
      have := ih e calls h
      simpa [numToolUses, toolUseIds] using this
    | toolUse id name input =>
      simp only [runAToolLoop] at h
      cases hx : executeTool name input with
      | error e2 =>
        rw [hx] at h
        simp only [Prod.mk.injEq] at h
        cases h.2
        simp [numToolUses, toolUseIds]
      | ok r =>
        rw [hx] at h
        cases hr : runAToolLoop executeTool rest with
        | mk res cs =>
          rw [hr] at h
          cases res with
          | error e3 =>
            simp only [Except.map, Prod.mk.injEq, Except.error.injEq] at h
            obtain ⟨h1, h2⟩ := h
            cases h2
            have := ih e3 cs hr
            simp only [numToolUses, toolUseIds, List.length_cons] at this ⊢
            omega
          | ok rs2 => simp [Except.map] at h

/-- The tool-role turn produced for one function-calling tool call: role
`tool`, the call invocation id, and either the tool result or the
error-describing string, depending on the call outcome. -/
theorem processToolCall_fst (p : ParseFn) (e : ExecFn) (tc : OToolCall) :
    (processToolCall p e tc).1 =
      { role := "tool",
        content := some (match callOutcome p e tc with
                         | .ok r => r
                         | .error err => "Error executing tool: " ++ err),
        tool_call_id := some tc.id } := by
  unfold processToolCall callOutcome
  cases hp : p tc.function_arguments with
  | error e1 => simp
  | ok args => cases hx : e tc.function_name args <;> simp [hx]

/-- When the arguments of a call parse, the executor is invoked on that call. -/
theorem processToolCall_snd_parse_ok (p : ParseFn) (e : ExecFn) (tc : OToolCall)
    (args : List Arg) (h : p tc.function_arguments = .ok args) :
    (processToolCall p e tc).2 = some (tc.function_name, args) := by
  unfold processToolCall
  rw [h]
  cases hx : e tc.function_name args <;> simp [hx]

/-- When every payload parses, the function-calling loop invokes the executor
exactly once per tool call. -/
theorem processed_execs_length (p : ParseFn) (e : ExecFn) :
    ∀ tcs : List OToolCall,
      (∀ tc ∈ tcs, ∃ args, p tc.function_arguments = .ok args) →
      ((tcs.map (processToolCall p e)).filterMap Prod.snd).length = tcs.length := by
  intro tcs
  induction tcs with
  | nil => intro _; rfl
  | cons tc rest ih =>
    intro h
    obtain ⟨args, ha⟩ := h tc (List.mem_cons_self tc rest)
    simp only [List.map_cons, List.filterMap_cons]
    rw [processToolCall_snd_parse_ok p e tc args ha]
    simp only [List.length_cons]
    rw [ih (fun tc2 htc2 => h tc2 (List.mem_cons_of_mem _ htc2))]

/-- The sequence of tool-role turns produced by the function-calling loop. -/
theorem processed_turns_eq (p : ParseFn) (e : ExecFn) :
    ∀ tcs : List OToolCall,
      (tcs.map (processToolCall p e)).map Prod.fst =
        tcs.map (fun tc =>
          ({ role := "tool",
             content := some (match callOutcome p e tc with
                              | .ok r => r
                              | .error err => "Error executing tool: " ++ err),
             tool_call_id := some tc.id } : OMessage)) := by
  intro tcs
  induction tcs with
  | nil => rfl
  | cons tc rest ih =>
    simp only [List.map_cons]
    rw [processToolCall_fst, ih]

/-- Filtering for tool-role turns keeps exactly the turns built by the
function-calling loop. -/
theorem filter_tool_processed (p : ParseFn) (e : ExecFn) (tcs : List OToolCall) :
    ((tcs.map (processToolCall p e)).map Prod.fst).filter (fun m => m.role == "tool") =
      (tcs.map (processToolCall p e)).map Prod.fst := by
  rw [List.filter_eq_self]
  intro m hm
  rw [processed_turns_eq] at hm
  simp only [List.mem_map] at hm
  obtain ⟨tc, _, hmeq⟩ := hm
  rw [← hmeq]
  rfl

/-- The messages of the initial aisuite request do not depend on whether the
tools fields were attached. -/
theorem aisuiteFirstRequest_messages (model query history : String)
    (tools : List ToolVal) (mp : Bool) :
    (aisuiteFirstRequest model query history tools mp).messages =
      [{ role := "system",
         content := some (assembleSystem AIGenerator.SYSTEM_PROMPT history) },
       { role := "user", content := some query }] := rfl

/-- Path lemma: in Anthropic mode, when the first response does not stop for
tool use, the run makes exactly one request and returns `content[0].text`. -/
theorem gen_anthropic_regular (provider : ARequest → AResponse)
    (model query history : String) (tools : List ToolVal)
    (tool_manager : Option ExecFn)
    (hstop : (provider (anthropicFirstRequest model query history tools)).stop_reason ≠ "tool_use") :
    AIGenerator.generate_response_anthropic provider model query history tools tool_manager =
      (firstBlockText (provider (anthropicFirstRequest model query history tools)).content,
       { requests := [anthropicFirstRequest model query history tools], toolExecs := [] }) := by
  unfold AIGenerator.generate_response_anthropic
  cases tool_manager with
  | none => rfl
  | some executeTool => simp [hstop]

/-- Path lemma: in Anthropic mode with no tool manager, the run makes exactly
one request and returns `content[0].text`, whatever the stop reason. -/
theorem gen_anthropic_no_manager (provider : ARequest → AResponse)
    (model query history : String) (tools : List ToolVal) :
    AIGenerator.generate_response_anthropic provider model query history tools none =
      (firstBlockText (provider (anthropicFirstRequest model query history tools)).content,
       { requests := [anthropicFirstRequest model query history tools], toolExecs := [] }) := rfl

/-- Path lemma: in Anthropic mode, when the first response stops for tool use,
a manager is supplied and the executor loop succeeds with a non-empty batch,
the run makes exactly the two requests and returns the follow-up text. -/
theorem gen_anthropic_tool_path (provider : ARequest → AResponse)
    (executeTool : ExecFn) (model query history : String) (tools : List ToolVal)
    (rs : List ToolResultEntry) (calls : List ExecCall)
    (hstop : (provider (anthropicFirstRequest model query history tools)).stop_reason = "tool_use")
    (hrun : runAToolLoop executeTool
        (provider (anthropicFirstRequest model query history tools)).content = (.ok rs, calls))
    (hne : rs ≠ []) :
    AIGenerator.generate_response_anthropic provider model query history tools (some executeTool) =
      (firstBlockText
         (provider (anthropicToolFollowUp provider model query history tools rs)).content,
       { requests := [anthropicFirstRequest model query history tools,
                      anthropicToolFollowUp provider model query history tools rs],
         toolExecs := calls }) := by
  have hne2 : rs.isEmpty = false := by
    cases rs with
    | nil => exact absurd rfl hne
    | cons r rest => rfl
  unfold AIGenerator.generate_response_anthropic AIGenerator.handle_tool_execution
  simp only [hstop, if_true, hrun, hne2, anthropicToolFollowUp]
  simp [anthropicFirstRequest]

/-- Path lemma: in Anthropic mode, when the first response stops for tool use,
a manager is supplied and the executor raises, the error propagates and no
follow-up request is made. -/
theorem gen_anthropic_tool_path_error (provider : ARequest → AResponse)
    (executeTool : ExecFn) (model query history : String) (tools : List ToolVal)
    (e : String) (calls : List ExecCall)
    (hstop : (provider (anthropicFirstRequest model query history tools)).stop_reason = "tool_use")
    (hrun : runAToolLoop executeTool
        (provider (anthropicFirstRequest model query history tools)).content = (.error e, calls)) :
    AIGenerator.generate_response_anthropic provider model query history tools (some executeTool) =
      (.error e,
       { requests := [anthropicFirstRequest model query history tools], toolExecs := calls }) := by
  unfold AIGenerator.generate_response_anthropic AIGenerator.handle_tool_execution
  simp only [hstop, if_true, hrun]

/-- Path lemma: in aisuite mode, when the head choice of the first response
carries no truthy tool calls, the run makes exactly one request and returns the
message content. -/
theorem gen_aisuite_regular (provider : ORequest → OResponse) (parseArgs : ParseFn)
    (model query history : String) (tools : List ToolVal)
    (tool_manager : Option ExecFn) (choice : OChoice) (rest : List OChoice)
    (hch : (provider (aisuiteFirstRequest model query history tools tool_manager.isSome)).choices =
      choice :: rest)
    (htc : truthyToolCalls choice.message.tool_calls = false) :
    AIGenerator.generate_response_aisuite provider parseArgs model query history tools tool_manager =
      (.ok choice.message.content,
       { requests := [aisuiteFirstRequest model query history tools tool_manager.isSome],
         toolExecs := [] }) := by
  unfold AIGenerator.generate_response_aisuite
  cases tool_manager with
  | none =>
    simp only [Option.isSome_none] at hch
    simp [hch, oResponseText]
  | some executeTool =>
    simp only [Option.isSome_some] at hch ⊢
    rw [hch]
    simp [htc, oResponseText, hch]

/-- Path lemma: in aisuite mode with no tool manager, the run makes exactly one
request and returns the regular response text. -/
theorem gen_aisuite_no_manager (provider : ORequest → OResponse) (parseArgs : ParseFn)
    (model query history : String) (tools : List ToolVal) :
    AIGenerator.generate_response_aisuite provider parseArgs model query history tools none =
      (.ok (oResponseText (provider (aisuiteFirstRequest model query history tools false))),
       { requests := [aisuiteFirstRequest model query history tools false],
         toolExecs := [] }) := by
  unfold AIGenerator.generate_response_aisuite
  simp only [Option.isSome_none]

/-- Path lemma: in aisuite mode, when the head choice of the first response
carries a non-empty tool-call list and a manager is supplied, the run makes
exactly the two requests, builds one tool-role turn per call, and returns the
follow-up text. -/
theorem gen_aisuite_tool_path (provider : ORequest → OResponse) (parseArgs : ParseFn)
    (executeTool : ExecFn) (model query history : String) (tools : List ToolVal)
    (choice : OChoice) (rest : List OChoice) (tcs : List OToolCall)
    (hch : (provider (aisuiteFirstRequest model query history tools true)).choices =
      choice :: rest)
    (htc : choice.message.tool_calls = some tcs)
    (hne : tcs ≠ []) :
    AIGenerator.generate_response_aisuite provider parseArgs model query history tools
        (some executeTool) =
      (.ok (oResponseText (provider
         (aisuiteToolFollowUp parseArgs executeTool model query history tools choice tcs))),
       { requests := [aisuiteFirstRequest model query history tools true,
                      aisuiteToolFollowUp parseArgs executeTool model query history tools
                        choice tcs],
         toolExecs := (tcs.map (processToolCall parseArgs executeTool)).filterMap Prod.snd }) := by
  have hne2 : tcs.isEmpty = false := by
    cases tcs with
    | nil => exact absurd rfl hne
    | cons tc rest2 => rfl
  unfold AIGenerator.generate_response_aisuite AIGenerator.handle_openai_tool_execution
  simp only [Option.isSome_some] at hch ⊢
  rw [hch]
  simp only [htc, truthyToolCalls, hne2, Bool.not_false, if_true, aisuiteToolFollowUp]
  simp [hch, htc, aisuiteFirstRequest]

/-- The tool-role turns of the function-calling follow-up request are exactly
the per-call turns, in call order. -/
theorem oToolTurns_followUp (parseArgs : ParseFn) (executeTool : ExecFn)
    (model query history : String) (tools : List ToolVal)
    (choice : OChoice) (tcs : List OToolCall) :
    oToolTurns (aisuiteToolFollowUp parseArgs executeTool model query history tools choice tcs) =
      tcs.map (fun tc =>
        ({ role := "tool",
           content := some (match callOutcome parseArgs executeTool tc with
                            | .ok r => r
                            | .error err => "Error executing tool: " ++ err),
           tool_call_id := some tc.id } : OMessage)) := by
  unfold oToolTurns aisuiteToolFollowUp
  rw [List.filter_append]
  have h0 : ((aisuiteFirstRequest model query history tools true).messages ++
      [({ role := "assistant", content := choice.message.content,
          tool_calls := some tcs } : OMessage)]).filter (fun m => m.role == "tool") = [] := rfl
  rw [h0, List.nil_append, filter_tool_processed, processed_turns_eq]

/-- The invocation ids of the follow-up tool-role turns are the call ids. -/
theorem oToolTurnIds_followUp (parseArgs : ParseFn) (executeTool : ExecFn)
    (model query history : String) (tools : List ToolVal)
    (choice : OChoice) (tcs : List OToolCall) :
    oToolTurnIds (aisuiteToolFollowUp parseArgs executeTool model query history tools choice tcs) =
      tcs.map (fun tc => some tc.id) := by
  unfold oToolTurnIds
  rw [oToolTurns_followUp]
  simp

/-- Whatever path the aisuite run takes, its first outbound request is the
initial request with the tools fields attached exactly when both tools and
the tool manager are truthy. -/
theorem gen_aisuite_first_request (provider : ORequest → OResponse) (parseArgs : ParseFn)
    (model query history : String) (tools : List ToolVal)
    (tool_manager : Option ExecFn) :
    (AIGenerator.generate_response_aisuite provider parseArgs model query history tools
        tool_manager).2.requests.head? =
      some (aisuiteFirstRequest model query history tools tool_manager.isSome) := by
  unfold AIGenerator.generate_response_aisuite
  cases tool_manager with
  | none => rfl
  | some executeTool =>
    simp only [Option.isSome_some]
    cases hch : (provider (aisuiteFirstRequest model query history tools true)).choices with
    | nil => rfl
    | cons choice rest =>
      cases htr : truthyToolCalls choice.message.tool_calls with
      | false => simp [htr]
      | true =>
        simp only [htr, if_true]
        cases hh : AIGenerator.handle_openai_tool_execution provider parseArgs executeTool
            (provider (aisuiteFirstRequest model query history tools true))
            (aisuiteFirstRequest model query history tools true) with
        | mk res t => simp

/-- Boolean bridge: a non-empty string is bne-distinct from the empty string. -/
theorem bne_empty_true {s : String} (h : s ≠ "") : (s != "") = true :=
  bne_iff_ne.mpr h

/-- Boolean bridge: the empty string is not bne-distinct from itself. -/
theorem bne_empty_false {s : String} (h : s = "") : (s != "") = false := by
  subst h
  rfl

/-! Claim theorems. -/

/-- C8: Prompt assembly is a pure function of the base instruction and the
history: assembling with empty (absent) history returns exactly the base
instruction unchanged, and for every non-empty history string the result is
the base instruction followed by the labeled previous-conversation section
containing the history, so the base is a strict prefix of the result. -/
theorem C8_prompt_assembly_pure (base h : String) :
    assembleSystem base "" = base ∧
    (h ≠ "" →
      assembleSystem base h = base ++ ("\n\nPrevious conversation:\n" ++ h) ∧
      ∃ t, t ≠ "" ∧ assembleSystem base h = base ++ t) := by
  refine ⟨by simp [assembleSystem], fun hne => ⟨by simp [assembleSystem, hne], ?_⟩⟩
  refine ⟨"\n\nPrevious conversation:\n" ++ h, ?_, by simp [assembleSystem, hne]⟩
  intro heq
  have hl := congrArg String.length heq
  rw [String.length_append] at hl
  have h25 : ("\n\nPrevious conversation:\n" : String).length = 25 := rfl
  have h0 : ("" : String).length = 0 := rfl
  rw [h25, h0] at hl
  omega

/-- C8 witness: the theorem instantiated at a concrete base and history. -/
theorem C8_prompt_assembly_pure_witness :
    assembleSystem "base" "hi" = "base" ++ ("\n\nPrevious conversation:\n" ++ "hi") ∧
    ∃ t, t ≠ "" ∧ assembleSystem "base" "hi" = "base" ++ t :=
  (C8_prompt_assembly_pure "base" "hi").2 (by decide)

/-- C5: For every query whose first provider response is not a tool-invocation
response (native mode: stop reason is not tool_use; function-calling mode: the
head message carries no truthy tool-call descriptors), generate_response makes
exactly one outbound provider call and returns that response text unchanged. -/
theorem C5_non_tool_response_single_call :
    (∀ (provider : ARequest → AResponse) (model query history : String)
       (tools : List ToolVal) (tool_manager : Option ExecFn) (s : String),
       (provider (anthropicFirstRequest model query history tools)).stop_reason ≠ "tool_use" →
       firstBlockText (provider (anthropicFirstRequest model query history tools)).content = .ok s →
       AIGenerator.generate_response_anthropic provider model query history tools tool_manager =
         (.ok s,
          { requests := [anthropicFirstRequest model query history tools], toolExecs := [] })) ∧
    (∀ (provider : ORequest → OResponse) (parseArgs : ParseFn) (model query history : String)
       (tools : List ToolVal) (tool_manager : Option ExecFn) (choice : OChoice)
       (rest : List OChoice),
       (provider (aisuiteFirstRequest model query history tools tool_manager.isSome)).choices =
         choice :: rest →
       truthyToolCalls choice.message.tool_calls = false →
       AIGenerator.generate_response_aisuite provider parseArgs model query history tools
           tool_manager =
         (.ok choice.message.content,
          { requests := [aisuiteFirstRequest model query history tools tool_manager.isSome],
            toolExecs := [] })) := by
  constructor
  · intro provider model query history tools tool_manager s hstop htext
    rw [gen_anthropic_regular provider model query history tools tool_manager hstop, htext]
  · intro provider parseArgs model query history tools tool_manager choice rest hch htc
    exact gen_aisuite_regular provider parseArgs model query history tools tool_manager
      choice rest hch htc

/-- C5 witness: both modes instantiated at concrete non-tool responses. -/
theorem C5_non_tool_response_single_call_witness :
    (AIGenerator.generate_response_anthropic cProviderPlainA "m" "q" "" [] none =
      (.ok "hello",
       { requests := [anthropicFirstRequest "m" "q" "" []], toolExecs := [] })) ∧
    (AIGenerator.generate_response_aisuite cOProviderPlain cParseOk "m" "q" "" [] none =
      (.ok (some "plain answer"),
       { requests := [aisuiteFirstRequest "m" "q" "" [] false], toolExecs := [] })) :=
  ⟨C5_non_tool_response_single_call.1 cProviderPlainA "m" "q" "" [] none "hello"
      (by decide) rfl,
   C5_non_tool_response_single_call.2 cOProviderPlain cParseOk "m" "q" "" [] none
      { message := { role := "assistant", content := some "plain answer" } } [] rfl rfl⟩

/-- C9: In native mode, when the first response stops for tool use but no tool
manager is supplied, generate_response executes no tools, issues no follow-up
request, and returns the text of the first content block of that
tool-requesting response. -/
theorem C9_native_tool_use_without_manager (provider : ARequest → AResponse)
    (model query history : String) (tools : List ToolVal) (s : String)
    (rest : List AContent)
    (hstop : (provider (anthropicFirstRequest model query history tools)).stop_reason =
      "tool_use")
    (hhead : (provider (anthropicFirstRequest model query history tools)).content =
      .text s :: rest) :
    AIGenerator.generate_response_anthropic provider model query history tools none =
      (.ok s,
       { requests := [anthropicFirstRequest model query history tools], toolExecs := [] }) := by
  rw [gen_anthropic_no_manager, hhead]
  rfl

/-- C9 witness: the theorem instantiated at the concrete one-tool response. -/
theorem C9_native_tool_use_without_manager_witness :
    AIGenerator.generate_response_anthropic cProviderOneTool "m" "q" "" [] none =
      (.ok "I will search",
       { requests := [anthropicFirstRequest "m" "q" "" []], toolExecs := [] }) :=
  C9_native_tool_use_without_manager cProviderOneTool "m" "q" "" [] "I will search"
    [.toolUse "tu1" "search_course_content" [("query", "MCP")]] rfl rfl

/-- C10: In function-calling mode, when tool specs are supplied but no tool
manager is, neither the tools nor the tool-choice field is attached, and the
whole run (in particular the request sent to the provider) is identical to the
run for the same query with no tool specs at all. -/
theorem C10_fc_tools_require_manager (provider : ORequest → OResponse)
    (parseArgs : ParseFn) (model query history : String) (tools : List ToolVal) :
    AIGenerator.generate_response_aisuite provider parseArgs model query history tools none =
      AIGenerator.generate_response_aisuite provider parseArgs model query history [] none ∧
    (aisuiteFirstRequest model query history tools false).tools = none ∧
    (aisuiteFirstRequest model query history tools false).tool_choice = none ∧
    aisuiteFirstRequest model query history tools false =
      aisuiteFirstRequest model query history [] false ∧
    (AIGenerator.generate_response_aisuite provider parseArgs model query history tools
        none).2.requests =
      [aisuiteFirstRequest model query history tools false] := by
  have hreq : aisuiteFirstRequest model query history tools false =
      aisuiteFirstRequest model query history [] false := by
    unfold aisuiteFirstRequest
    simp
  refine ⟨?_, by simp [aisuiteFirstRequest], by simp [aisuiteFirstRequest], hreq, ?_⟩
  · rw [gen_aisuite_no_manager, gen_aisuite_no_manager, hreq]
  · rw [gen_aisuite_no_manager]

/-- C2: Under the function-calling protocol, for every tool-call list in the
first response, even when parsing or execution raises for some call, every
invocation id still receives exactly one tool-role turn in the follow-up
request (in call order, with an error-describing content string for the failed
calls and the invocation id preserved), and generate_response still returns
the follow-up response text. -/
theorem C2_fc_per_call_failure_isolation (provider : ORequest → OResponse)
    (parseArgs : ParseFn) (executeTool : ExecFn) (model query history : String)
    (tools : List ToolVal) (choice : OChoice) (rest : List OChoice)
    (tcs : List OToolCall)
    (hch : (provider (aisuiteFirstRequest model query history tools true)).choices =
      choice :: rest)
    (htc : choice.message.tool_calls = some tcs)
    (hne : tcs ≠ [])
    (hfail : ∃ tc ∈ tcs, ∃ e, callOutcome parseArgs executeTool tc = .error e) :
    ∃ req2,
      (AIGenerator.generate_response_aisuite provider parseArgs model query history tools
          (some executeTool)).2.requests =
        [aisuiteFirstRequest model query history tools true, req2] ∧
      oToolTurns req2 = tcs.map (fun tc =>
        ({ role := "tool",
           content := some (match callOutcome parseArgs executeTool tc with
                            | .ok r => r
                            | .error err => "Error executing tool: " ++ err),
           tool_call_id := some tc.id } : OMessage)) ∧
      oToolTurnIds req2 = tcs.map (fun tc => some tc.id) ∧
      (AIGenerator.generate_response_aisuite provider parseArgs model query history tools
          (some executeTool)).1 = .ok (oResponseText (provider req2)) := by
  refine ⟨aisuiteToolFollowUp parseArgs executeTool model query history tools choice tcs,
    ?_, ?_, ?_, ?_⟩
  · rw [gen_aisuite_tool_path provider parseArgs executeTool model query history tools
      choice rest tcs hch htc hne]
  · exact oToolTurns_followUp parseArgs executeTool model query history tools choice tcs
  · exact oToolTurnIds_followUp parseArgs executeTool model query history tools choice tcs
  · rw [gen_aisuite_tool_path provider parseArgs executeTool model query history tools
      choice rest tcs hch htc hne]

/-- C2 witness: two concrete calls where the second one fails to parse; both
ids receive a tool-role turn and the run returns the follow-up text. -/
theorem C2_fc_per_call_failure_isolation_witness :
    ∃ req2,
      (AIGenerator.generate_response_aisuite cOProviderTwoCalls cParse "m" "q" ""
          [ToolVal.native aTool1] (some okExec)).2.requests =
        [aisuiteFirstRequest "m" "q" "" [ToolVal.native aTool1] true, req2] ∧
      oToolTurns req2 = [oCall1, oCall2].map (fun tc =>
        ({ role := "tool",
           content := some (match callOutcome cParse okExec tc with
                            | .ok r => r
                            | .error err => "Error executing tool: " ++ err),
           tool_call_id := some tc.id } : OMessage)) ∧
      oToolTurnIds req2 = [oCall1, oCall2].map (fun tc => some tc.id) ∧
      (AIGenerator.generate_response_aisuite cOProviderTwoCalls cParse "m" "q" ""
          [ToolVal.native aTool1] (some okExec)).1 = .ok (oResponseText (cOProviderTwoCalls req2)) :=
  C2_fc_per_call_failure_isolation cOProviderTwoCalls cParse okExec "m" "q" ""
    [ToolVal.native aTool1] choiceTwoCalls [] [oCall1, oCall2] rfl rfl (by decide)
    ⟨oCall2, by simp, "Expecting value", rfl⟩

/-- C1 counterexample: in native mode the first response requests one tool call
and an executor is supplied, yet because the executor raises, only one outbound
provider call is performed (not two) and no follow-up request carries any
tool results. -/
theorem C1_counterexample_native_raise :
    numToolUses (cProviderOneTool (anthropicFirstRequest "m" "q" "" [])).content = 1 ∧
    (AIGenerator.generate_response_anthropic cProviderOneTool "m" "q" "" []
        (some failExecA)).2.requests.length = 1 ∧
    (AIGenerator.generate_response_anthropic cProviderOneTool "m" "q" "" []
        (some failExecA)).1 = .error "boom" := ⟨rfl, rfl, rfl⟩

/-- C1 amended: for every query whose first response requests n tool calls
(n at least 1) with a tool executor supplied, and provided no tool execution
raises under the native protocol (respectively every argument payload parses
under the function-calling protocol), generate_response performs exactly two
outbound provider calls, executes exactly n tool invocations, the follow-up
request carries no tool specs and no tool choice, and the follow-up request
turns contain exactly one tool-result entry per invocation id with every
invocation id of the first response present. -/
theorem C1_two_round_trips_n_executions :
    (∀ (provider : ARequest → AResponse) (executeTool : ExecFn)
       (model query history : String) (tools : List ToolVal)
       (rs : List ToolResultEntry) (calls : List ExecCall),
       (provider (anthropicFirstRequest model query history tools)).stop_reason = "tool_use" →
       runAToolLoop executeTool
           (provider (anthropicFirstRequest model query history tools)).content = (.ok rs, calls) →
       1 ≤ numToolUses (provider (anthropicFirstRequest model query history tools)).content →
       ∃ req2,
         (AIGenerator.generate_response_anthropic provider model query history tools
             (some executeTool)).2.requests =
           [anthropicFirstRequest model query history tools, req2] ∧
         req2.tools = none ∧
         req2.tool_choice = none ∧
         (AIGenerator.generate_response_anthropic provider model query history tools
             (some executeTool)).2.toolExecs.length =
           numToolUses (provider (anthropicFirstRequest model query history tools)).content ∧
         aToolResultIds req2 =
           toolUseIds (provider (anthropicFirstRequest model query history tools)).content) ∧
    (∀ (provider : ORequest → OResponse) (parseArgs : ParseFn) (executeTool : ExecFn)
       (model query history : String) (tools : List ToolVal)
       (choice : OChoice) (rest : List OChoice) (tcs : List OToolCall),
       (provider (aisuiteFirstRequest model query history tools true)).choices =
         choice :: rest →
       choice.message.tool_calls = some tcs →
       tcs ≠ [] →
       (∀ tc ∈ tcs, ∃ args, parseArgs tc.function_arguments = .ok args) →
       ∃ req2,
         (AIGenerator.generate_response_aisuite provider parseArgs model query history tools
             (some executeTool)).2.requests =
           [aisuiteFirstRequest model query history tools true, req2] ∧
         req2.tools = none ∧
         req2.tool_choice = none ∧
         (AIGenerator.generate_response_aisuite provider parseArgs model query history tools
             (some executeTool)).2.toolExecs.length = tcs.length ∧
         oToolTurnIds req2 = tcs.map (fun tc => some tc.id)) := by
  constructor
  · intro provider executeTool model query history tools rs calls hstop hrun hn
    obtain ⟨hids, hlen⟩ := runAToolLoop_ok_spec executeTool
      (provider (anthropicFirstRequest model query history tools)).content rs calls hrun
    have hrs : rs ≠ [] := by
      intro hnil
      rw [hnil] at hids
      simp only [List.map_nil] at hids
      rw [numToolUses, ← hids] at hn
      simp at hn
    refine ⟨anthropicToolFollowUp provider model query history tools rs, ?_, rfl, rfl, ?_, ?_⟩
    · rw [gen_anthropic_tool_path provider executeTool model query history tools rs calls
        hstop hrun hrs]
    · rw [gen_anthropic_tool_path provider executeTool model query history tools rs calls
        hstop hrun hrs]
      exact hlen
    · unfold anthropicToolFollowUp aToolResultIds
      simp only [List.map_cons, List.map_nil, messageResultIds]
      simp [hids]
  · intro provider parseArgs executeTool model query history tools choice rest tcs
      hch htc hne hparse
    refine ⟨aisuiteToolFollowUp parseArgs executeTool model query history tools choice tcs,
      ?_, rfl, rfl, ?_, ?_⟩
    · rw [gen_aisuite_tool_path provider parseArgs executeTool model query history tools
        choice rest tcs hch htc hne]
    · rw [gen_aisuite_tool_path provider parseArgs executeTool model query history tools
        choice rest tcs hch htc hne]
      exact processed_execs_length parseArgs executeTool tcs hparse
    · exact oToolTurnIds_followUp parseArgs executeTool model query history tools choice tcs

/-- C1 witness: both parts of the amended theorem instantiated at concrete
inputs where the executor succeeds and every payload parses. -/
theorem C1_two_round_trips_n_executions_witness :
    (∃ req2,
       (AIGenerator.generate_response_anthropic cProviderOneTool "m" "q" "" []
           (some okExec)).2.requests =
         [anthropicFirstRequest "m" "q" "" [], req2] ∧
       req2.tools = none ∧
       req2.tool_choice = none ∧
       (AIGenerator.generate_response_anthropic cProviderOneTool "m" "q" "" []
           (some okExec)).2.toolExecs.length =
         numToolUses (cProviderOneTool (anthropicFirstRequest "m" "q" "" [])).content ∧
       aToolResultIds req2 =
         toolUseIds (cProviderOneTool (anthropicFirstRequest "m" "q" "" [])).content) ∧
    (∃ req2,
       (AIGenerator.generate_response_aisuite cOProviderTwoCalls cParseOk "m" "q" "" []
           (some okExec)).2.requests =
         [aisuiteFirstRequest "m" "q" "" [] true, req2] ∧
       req2.tools = none ∧
       req2.tool_choice = none ∧
       (AIGenerator.generate_response_aisuite cOProviderTwoCalls cParseOk "m" "q" "" []
           (some okExec)).2.toolExecs.length = [oCall1, oCall2].length ∧
       oToolTurnIds req2 = [oCall1, oCall2].map (fun tc => some tc.id)) :=
  ⟨C1_two_round_trips_n_executions.1 cProviderOneTool okExec "m" "q" "" []
     [{ type := "tool_result", tool_use_id := "tu1", content := "MCP is a protocol" }]
     [("search_course_content", [("query", "MCP")])] rfl rfl (by decide),
   C1_two_round_trips_n_executions.2 cOProviderTwoCalls cParseOk okExec "m" "q" "" []
     choiceTwoCalls [] [oCall1, oCall2] rfl rfl (by decide)
     (fun tc _ => ⟨[("query", "MCP")], rfl⟩)⟩

/-- C3 counterexample: in native mode the first response requests two tool
calls and the executor raises on the first; no batched tool-results message is
sent — the run performs only the single initial outbound call, the error
propagates, and the second call is never executed. -/
theorem C3_counterexample_native_raise :
    (cProviderTwoTool (anthropicFirstRequest "m2" "q2" "" [])).stop_reason = "tool_use" ∧
    numToolUses (cProviderTwoTool (anthropicFirstRequest "m2" "q2" "" [])).content = 2 ∧
    (AIGenerator.generate_response_anthropic cProviderTwoTool "m2" "q2" "" []
        (some failExecB)).2.requests.length = 1 ∧
    (AIGenerator.generate_response_anthropic cProviderTwoTool "m2" "q2" "" []
        (some failExecB)).1 = .error "kaboom" ∧
    (AIGenerator.generate_response_anthropic cProviderTwoTool "m2" "q2" "" []
        (some failExecB)).2.toolExecs.length = 1 := ⟨rfl, rfl, rfl, rfl, rfl⟩

/-- C3 amended: under the native tool-use protocol, if the tool executor raises
for one call of the batch, the batch IS aborted: the exception propagates as
the result of generate_response, no batched tool-results message is built and
no follow-up request is sent (only the initial outbound call occurs), and the
calls after the failing one are never executed. -/
theorem C3_native_raise_aborts_batch (provider : ARequest → AResponse)
    (executeTool : ExecFn) (model query history : String) (tools : List ToolVal)
    (e : String) (calls : List ExecCall)
    (hstop : (provider (anthropicFirstRequest model query history tools)).stop_reason =
      "tool_use")
    (hrun : runAToolLoop executeTool
        (provider (anthropicFirstRequest model query history tools)).content =
      (.error e, calls)) :
    (AIGenerator.generate_response_anthropic provider model query history tools
        (some executeTool)).1 = .error e ∧
    (AIGenerator.generate_response_anthropic provider model query history tools
        (some executeTool)).2.requests =
      [anthropicFirstRequest model query history tools] ∧
    (AIGenerator.generate_response_anthropic provider model query history tools
        (some executeTool)).2.toolExecs.length ≤
      numToolUses (provider (anthropicFirstRequest model query history tools)).content := by
  rw [gen_anthropic_tool_path_error provider executeTool model query history tools e calls
    hstop hrun]
  exact ⟨rfl, rfl,
    (runAToolLoop_error_calls executeTool
      (provider (anthropicFirstRequest model query history tools)).content e calls hrun).2⟩

/-- C3 witness: the amended theorem instantiated at the concrete two-call
response with the raising executor. -/
theorem C3_native_raise_aborts_batch_witness :
    (AIGenerator.generate_response_anthropic cProviderTwoTool "m3" "q3" "" []
        (some failExecB)).1 = .error "kaboom" ∧
    (AIGenerator.generate_response_anthropic cProviderTwoTool "m3" "q3" "" []
        (some failExecB)).2.requests = [anthropicFirstRequest "m3" "q3" "" []] ∧
    (AIGenerator.generate_response_anthropic cProviderTwoTool "m3" "q3" "" []
        (some failExecB)).2.toolExecs.length ≤
      numToolUses (cProviderTwoTool (anthropicFirstRequest "m3" "q3" "" [])).content :=
  C3_native_raise_aborts_batch cProviderTwoTool failExecB "m3" "q3" "" [] "kaboom"
    [("alpha", [("k", "v")])] rfl rfl

/-- C4 counterexample: a native-shape tool spec passed to generate_response in
aisuite mode is attached to the outbound request verbatim, not translated into
the function-calling shape. -/
theorem C4_counterexample_no_translation :
    (AIGenerator.generate_response_aisuite cOProviderPlain cParseOk "m" "q" ""
        [ToolVal.native aTool1] (some okExec)).2.requests.map (fun r => r.tools) =
      [some [ToolVal.native aTool1]] ∧
    isFunctionShaped (ToolVal.native aTool1) = false := ⟨rfl, rfl⟩

/-- C4 amended: generate_response in aisuite mode attaches the supplied tool
specs verbatim to the outbound request (no translation of the attached values
is performed), sets tool-choice to auto exactly when tool specs are present and
a tool executor is supplied, and the translation of the native shape into the
function-calling shape is implemented by the separate helper
convert_tools_to_openai_format (which generate_response does not apply). -/
theorem C4_tools_attached_verbatim (provider : ORequest → OResponse)
    (parseArgs : ParseFn) (model query history : String) (tools : List ToolVal)
    (tool_manager : Option ExecFn) :
    (AIGenerator.generate_response_aisuite provider parseArgs model query history tools
        tool_manager).2.requests.head? =
      some (aisuiteFirstRequest model query history tools tool_manager.isSome) ∧
    (aisuiteFirstRequest model query history tools tool_manager.isSome).tools =
      (if !tools.isEmpty && tool_manager.isSome then some tools else none) ∧
    (aisuiteFirstRequest model query history tools tool_manager.isSome).tool_choice =
      (if !tools.isEmpty && tool_manager.isSome then some "auto" else none) ∧
    (∀ ts : List AToolSpec,
      AIGenerator.convert_tools_to_openai_format ts =
        ts.map (fun t =>
          { type := "function",
            function := { name := t.name, description := t.description,
                          parameters := t.input_schema } })) := by
  refine ⟨gen_aisuite_first_request provider parseArgs model query history tools tool_manager,
    rfl, rfl, ?_⟩
  intro ts
  unfold AIGenerator.convert_tools_to_openai_format
  rw [foldl_append_map]
  rfl

/-- C6: Construction iterates the fixed priority list OpenAI, Anthropic,
Google Gemini, xAI Grok and selects the first provider whose credential slot
holds a non-empty secret (deterministically — a pure function of the
configuration, independent of any insertion order); the native (anthropic)
convention is chosen exactly when the selected provider is Anthropic, and the
function-calling (aisuite) convention for all others. -/
theorem C6_provider_routing (aisuiteAvailable : Bool) (cfg : Config) (st : InitState)
    (h : AIGenerator.init aisuiteAvailable cfg = .ok st) :
    selectProvider cfg = some st.provider ∧
    (st.provider_mode = "anthropic" ↔ st.provider = Provider.anthropic) := by
  unfold AIGenerator.init at h
  split_ifs at h with h1 h2 h3 h4 h5 h6 h7 <;>
    first
    | exact Except.noConfusion h
    | (injection h with hst
       subst hst
       simp_all [selectProvider, providerPriority, List.find?, Provider.keyOf,
         bne_empty_false, bne_empty_true])

/-- C6 witness: with only the Anthropic slot populated, construction selects
Anthropic and the native convention. -/
theorem C6_provider_routing_witness :
    selectProvider cfgAnthropicOnly =
      some (InitState.mk Provider.anthropic "anthropic" "claude-sonnet-4-20250514").provider ∧
    ((InitState.mk Provider.anthropic "anthropic" "claude-sonnet-4-20250514").provider_mode =
        "anthropic" ↔
      (InitState.mk Provider.anthropic "anthropic" "claude-sonnet-4-20250514").provider =
        Provider.anthropic) :=
  C6_provider_routing true cfgAnthropicOnly
    (InitState.mk Provider.anthropic "anthropic" "claude-sonnet-4-20250514") rfl

/-- C7: Construction fails (raises) if and only if either no credential slot is
populated, or the first-populated credential selects the function-calling
convention (a provider other than Anthropic) while the aisuite dependency is
unavailable; on success nothing partial is produced (the result is a whole
InitState), and on failure nothing is produced at all. -/
theorem C7_construction_failure_iff (aisuiteAvailable : Bool) (cfg : Config) :
    (∃ e, AIGenerator.init aisuiteAvailable cfg = .error e) ↔
      ((cfg.OPENAI_API_KEY = "" ∧ cfg.ANTHROPIC_API_KEY = "" ∧
        cfg.GOOGLE_API_KEY = "" ∧ cfg.XAI_API_KEY = "") ∨
       (aisuiteAvailable = false ∧
        ∃ p, selectProvider cfg = some p ∧ p ≠ Provider.anthropic)) := by
  unfold AIGenerator.init
  split_ifs with h1 h2 h3 h4 h5 h6 h7 <;>
    simp_all [selectProvider, providerPriority, List.find?, Provider.keyOf,
      bne_empty_false, bne_empty_true]
